import Mathlib

/-!
# Publish/subscribe reliability layer (`internal/pubsub/pubsub.go`)

A shallow embedding of `PublishJSON`, `PublishGob`, `DeclareAndBind`,
`SubscribeJSON`, `subscribe` and `SubscribeGob`.

* The broker (package `amqp`) is an oracle: a `Connection` and a `Channel` are
  records of the results their methods return.  Every function of the package
  returns, next to its Go result, the list of broker calls it made, in order.
* A Go `error` is a `GoError`; `fmt.Errorf("...: %w", err)` is `GoError.wrapped`.
* The goroutine started by a subscribe call is the consumption loop run over the
  finite sequence of deliveries that the stream yields before it is closed; its
  observable behaviour is the list of `Event`s it performs.
* A handler is a closure: it is a function of its captured state `σ`.  Handlers,
  decoders and encoders are calls that return.
* The `context.Background()` argument of `PublishWithContext` is left out.
-/

namespace PubSub

/-! ## Data model -/

/-- A `[]byte`. -/
abbrev Bytes := List Nat

/-- A Go `error` value: an error of the broker or of a codec, or such an error
wrapped by `fmt.Errorf(text ++ "%w", inner)`. -/
inductive GoError where
  | base (msg : String)
  | wrapped (text : String) (inner : GoError)
deriving DecidableEq, Repr

/-- The method `Error()`: the message of an error. -/
def GoError.Error : GoError → String
  | .base msg => msg
  | .wrapped text inner => text ++ inner.Error

/-- The function `errors.Unwrap`. -/
def GoError.Unwrap : GoError → Option GoError
  | .base _ => none
  | .wrapped _ inner => some inner

/-- An `amqp.Table` whose values are strings; `none` is the nil table. -/
abbrev Table := Option (List (String × String))

/-- The entry of a table under a key (nil has no entries). -/
def Table.entry (t : Table) (k : String) : Option String :=
  match t with
  | none => none
  | some entries => (entries.find? (fun e => e.1 == k)).map (fun e => e.2)

/-- `routing.ExchangePerilDead` (routing.go, line 18). -/
def ExchangePerilDead : String := "peril_dlx"

/-- `QueueTypeDurable = iota` (pubsub.go, line 15). -/
def QueueTypeDurable : Int := 0

/-- `QueueTypeTransient` (pubsub.go, line 16). -/
def QueueTypeTransient : Int := 1

/-- The fields of `amqp.Publishing` that the package sets. -/
structure Publishing where
  ContentType : String
  Body : Bytes
deriving DecidableEq, Repr

/-- The field of `amqp.Queue` that the package reads. -/
structure Queue where
  Name : String
deriving DecidableEq, Repr

/-- A call on the broker, with the arguments it is given.  `ch` is the
identity of the channel the method is called on. -/
inductive Call where
  | Channel
  | QueueDeclare (ch : Nat) (name : String) (durable autoDelete exclusive noWait : Bool)
      (args : Table)
  | QueueBind (ch : Nat) (name key exchange : String) (noWait : Bool) (args : Table)
  | Qos (ch : Nat) (prefetchCount prefetchSize : Int) (global : Bool)
  | Consume (ch : Nat) (queue consumer : String) (autoAck exclusive noLocal noWait : Bool)
      (args : Table)
  | PublishWithContext (ch : Nat) (exchange key : String) (mandatory immediate : Bool)
      (msg : Publishing)
deriving DecidableEq, Repr

/-- An `amqp.Delivery`: its tag, its payload, and what the broker answers to
`Ack(multiple)` and to `Nack(multiple, requeue)` on it. -/
structure Delivery where
  DeliveryTag : Nat
  Body : Bytes
  ackResult : Bool → Option GoError
  nackResult : Bool → Bool → Option GoError

/-- The constants `Ack`, `NackRequeue` and `NackDiscard` of the type `AckType`.
Their declaration lies outside `pubsub.go`, in another file of package
`pubsub`, so the type `A` and the three values are parameters.  The `switch` of
the consumption loop compares the handler's result with them, so `A` has
decidable equality.  A Go type that holds three distinct constants has further
values: Go has no closed enumerations. -/
structure AckConsts (A : Type) where
  Ack : A
  NackRequeue : A
  NackDiscard : A

/-- The three constants are pairwise different (Go rejects a `switch` with a
duplicate constant case). -/
def AckConsts.Distinct {A : Type} (K : AckConsts A) : Prop :=
  K.Ack ≠ K.NackRequeue ∧ K.Ack ≠ K.NackDiscard ∧ K.NackRequeue ≠ K.NackDiscard

/-- The declaration `type AckType int` with `Ack AckType = iota`, `NackRequeue`,
`NackDiscard`: the idiom of the `const` block at pubsub.go lines 14-17. -/
def AckTypeInt : AckConsts Int := ⟨0, 1, 2⟩

/-- What the consumption loop does, in order: the decoder is called on a
payload, a line is written to standard output, the handler is called with a
value, the handler returns a value, `Ack` or `Nack` is called on the delivery
with a tag. -/
inductive Event (T A : Type) where
  | Unmarshal (body : Bytes)
  | Print (out : String)
  | HandlerCall (val : T)
  | HandlerReturn (ret : A)
  | Ack (tag : Nat) (multiple : Bool)
  | Nack (tag : Nat) (multiple requeue : Bool)
deriving DecidableEq, Repr

/-- The call `msg.Ack(multiple)`: the call made and the error it returns. -/
def Delivery.Ack {T A : Type} (msg : Delivery) (multiple : Bool) :
    Event T A × Option GoError :=
  (Event.Ack msg.DeliveryTag multiple, msg.ackResult multiple)

/-- The call `msg.Nack(multiple, requeue)`: the call made and the error it returns. -/
def Delivery.Nack {T A : Type} (msg : Delivery) (multiple requeue : Bool) :
    Event T A × Option GoError :=
  (Event.Nack msg.DeliveryTag multiple requeue, msg.nackResult multiple requeue)

/-- An `*amqp.Channel`: its identity and the results of its methods. -/
structure Channel where
  id : Nat
  QueueDeclare : String → Bool → Bool → Bool → Bool → Table → Except GoError Queue
  QueueBind : String → String → String → Bool → Table → Option GoError
  Qos : Int → Int → Bool → Option GoError
  Consume : String → String → Bool → Bool → Bool → Bool → Table →
    Except GoError (List Delivery)
  PublishWithContext : String → String → Bool → Bool → Publishing → Option GoError

/-- An `*amqp.Connection`: the result of its method `Channel()`. -/
structure Connection where
  Channel : Except GoError Channel

/-! ## Publisher (pubsub.go, lines 19-47) -/

/-- `PublishJSON` (lines 20-29); `Marshal` is `json.Marshal` at the type `T`. -/
def PublishJSON {T : Type} (Marshal : T → Except GoError Bytes)
    (ch : Channel) (exchange key : String) (val : T) : List Call × Option GoError :=
  match Marshal val with
  | .error err => ([], some err)
  | .ok body =>
    ([Call.PublishWithContext ch.id exchange key false false
        { ContentType := "application/json", Body := body }],
     ch.PublishWithContext exchange key false false
        { ContentType := "application/json", Body := body })

/-- `PublishGob` (lines 31-47); `Encode` is `gob.NewEncoder(&buf).Encode` at the
type `T`, returning the content of `buf`. -/
def PublishGob {T : Type} (Encode : T → Except GoError Bytes)
    (ch : Channel) (exchange key : String) (val : T) : List Call × Option GoError :=
  match Encode val with
  | .error err => ([], some err)
  | .ok buf =>
    ([Call.PublishWithContext ch.id exchange key false false
        { ContentType := "application/gob", Body := buf }],
     ch.PublishWithContext exchange key false false
        { ContentType := "application/gob", Body := buf })

/-! ## Topology manager (pubsub.go, lines 49-98) -/

/-- `DeclareAndBind` (lines 50-98): the broker calls made and the result. -/
def DeclareAndBind (conn : Connection) (exchange queueName key : String)
    (simpleQueueType : Int) : List Call × Except GoError (Channel × Queue) :=
  match conn.Channel with
  | .error err => ([Call.Channel], .error (.wrapped "channel creation error: " err))
  | .ok ch =>
    let durable := decide (simpleQueueType = QueueTypeDurable)
    let autoDelete := decide (simpleQueueType = QueueTypeTransient)
    let exclusive := decide (simpleQueueType = QueueTypeTransient)
    let args : Table :=
      if queueName ≠ "game_logs" then
        some [("x-dead-letter-exchange", ExchangePerilDead)]
      else none
    let declare := Call.QueueDeclare ch.id queueName durable autoDelete exclusive false args
    match ch.QueueDeclare queueName durable autoDelete exclusive false args with
    | .error err =>
      ([Call.Channel, declare], .error (.wrapped "queue declare error: " err))
    | .ok q =>
      match ch.QueueBind q.Name key exchange false none with
      | some err =>
        ([Call.Channel, declare, Call.QueueBind ch.id q.Name key exchange false none],
         .error (.wrapped "queue bind error: " err))
      | none =>
        ([Call.Channel, declare, Call.QueueBind ch.id q.Name key exchange false none],
         .ok (ch, q))

/-! ## Delivery dispatcher (pubsub.go, lines 101-224) -/

/-- The statement `for msg := range deliveries`: the body is run on each
delivery of the stream in turn, each run starting in the state the previous
one left, until the stream is closed. -/
def rangeLoop {E σ : Type} (body : σ → Delivery → List E × σ) :
    σ → List Delivery → List E × σ
  | s, [] => ([], s)
  | s, msg :: rest =>
    let r := body s msg
    let r2 := rangeLoop body r.2 rest
    (r.1 ++ r2.1, r2.2)

/-- The body of the loop of `SubscribeJSON` (lines 129-146); `Unmarshal` is
`json.Unmarshal` into a fresh `T`. -/
def SubscribeJSON.body {T A σ : Type} [DecidableEq A] (K : AckConsts A)
    (Unmarshal : Bytes → Except GoError T) (handler : σ → T → A × σ)
    (s : σ) (msg : Delivery) : List (Event T A) × σ :=
  match Unmarshal msg.Body with
  | .error err =>
    ([Event.Unmarshal msg.Body,
      Event.Print ("Failed to unmarshal message: " ++ err.Error ++ "\n"),
      (msg.Nack false false).1], s)
  | .ok val =>
    let r := handler s val
    let called := [Event.Unmarshal msg.Body, Event.HandlerCall val, Event.HandlerReturn r.1]
    if r.1 = K.Ack then
      (called ++ [(msg.Ack false).1, Event.Print "[pubsub] Acked message\n"], r.2)
    else if r.1 = K.NackRequeue then
      (called ++ [(msg.Nack false true).1, Event.Print "[pubsub] Nack with requeue\n"], r.2)
    else if r.1 = K.NackDiscard then
      (called ++ [(msg.Nack false false).1, Event.Print "[pubsub] Nack with discard\n"], r.2)
    else (called, r.2)

/-- The body of the loop of `subscribe` (lines 186-203). -/
def subscribe.body {T A σ : Type} [DecidableEq A] (K : AckConsts A)
    (unmarshaller : Bytes → Except GoError T) (handler : σ → T → A × σ)
    (s : σ) (msg : Delivery) : List (Event T A) × σ :=
  match unmarshaller msg.Body with
  | .error err =>
    ([Event.Unmarshal msg.Body,
      Event.Print ("Failed to decode message: " ++ err.Error ++ "\n"),
      (msg.Nack false false).1], s)
  | .ok val =>
    let r := handler s val
    let called := [Event.Unmarshal msg.Body, Event.HandlerCall val, Event.HandlerReturn r.1]
    if r.1 = K.Ack then
      (called ++ [(msg.Ack false).1, Event.Print "[pubsub] Acked message\n"], r.2)
    else if r.1 = K.NackRequeue then
      (called ++ [(msg.Nack false true).1, Event.Print "[pubsub] Nack with requeue\n"], r.2)
    else if r.1 = K.NackDiscard then
      (called ++ [(msg.Nack false false).1, Event.Print "[pubsub] Nack with discard\n"], r.2)
    else (called, r.2)

/-- The result of a subscribe call: the broker calls it made, the error it
returns (`none` is nil), and, when it started the goroutine, what the
consumption loop does over the stream. -/
structure Subscription (T A σ : Type) where
  calls : List Call
  err : Option GoError
  goroutine : Option (List (Event T A) × σ)

/-- `SubscribeJSON` (lines 101-151); `s` is the state of the handler when the
goroutine starts. -/
def SubscribeJSON {T A σ : Type} [DecidableEq A] (K : AckConsts A)
    (Unmarshal : Bytes → Except GoError T)
    (conn : Connection) (exchange queueName key : String) (simpleQueueType : Int)
    (handler : σ → T → A × σ) (s : σ) : Subscription T A σ :=
  match DeclareAndBind conn exchange queueName key simpleQueueType with
  | (calls, .error err) => { calls := calls, err := some err, goroutine := none }
  | (calls, .ok (ch, queue)) =>
    let consume := Call.Consume ch.id queue.Name "" false false false false none
    match ch.Consume queue.Name "" false false false false none with
    | .error err => { calls := calls ++ [consume], err := some err, goroutine := none }
    | .ok deliveries =>
      { calls := calls ++ [consume], err := none,
        goroutine := some (rangeLoop (SubscribeJSON.body K Unmarshal handler) s deliveries) }

/-- The generic `subscribe` (lines 153-208). -/
def subscribe {T A σ : Type} [DecidableEq A] (K : AckConsts A)
    (conn : Connection) (exchange queueName key : String) (simpleQueueType : Int)
    (handler : σ → T → A × σ) (unmarshaller : Bytes → Except GoError T) (s : σ) :
    Subscription T A σ :=
  match DeclareAndBind conn exchange queueName key simpleQueueType with
  | (calls, .error err) =>
    { calls := calls, err := some (.wrapped "failed to declare and bind: " err),
      goroutine := none }
  | (calls, .ok (ch, queue)) =>
    match ch.Qos 10 0 false with
    | some err =>
      { calls := calls ++ [Call.Qos ch.id 10 0 false],
        err := some (.wrapped "failed to set QoS: " err), goroutine := none }
    | none =>
      let consume := Call.Consume ch.id queue.Name "" false false false false none
      match ch.Consume queue.Name "" false false false false none with
      | .error err =>
        { calls := calls ++ [Call.Qos ch.id 10 0 false, consume], err := some err,
          goroutine := none }
      | .ok deliveries =>
        { calls := calls ++ [Call.Qos ch.id 10 0 false, consume], err := none,
          goroutine := some (rangeLoop (subscribe.body K unmarshaller handler) s deliveries) }

/-- `SubscribeGob` (lines 210-224); `Decode` is
`gob.NewDecoder(bytes.NewReader(data)).Decode` into a fresh `T`. -/
def SubscribeGob {T A σ : Type} [DecidableEq A] (K : AckConsts A)
    (Decode : Bytes → Except GoError T)
    (conn : Connection) (exchange queueName key : String) (simpleQueueType : Int)
    (handler : σ → T → A × σ) (s : σ) : Subscription T A σ :=
  let unmarshaller := fun data => Decode data
  subscribe K conn exchange queueName key simpleQueueType handler unmarshaller s

/-! ## Observations on what the consumption loop does -/

/-- The consumption loop of `SubscribeJSON` (lines 128-147). -/
def SubscribeJSON.loop {T A σ : Type} [DecidableEq A] (K : AckConsts A)
    (Unmarshal : Bytes → Except GoError T) (handler : σ → T → A × σ) :
    σ → List Delivery → List (Event T A) × σ :=
  rangeLoop (SubscribeJSON.body K Unmarshal handler)

/-- The consumption loop of `subscribe` (lines 185-204). -/
def subscribe.loop {T A σ : Type} [DecidableEq A] (K : AckConsts A)
    (unmarshaller : Bytes → Except GoError T) (handler : σ → T → A × σ) :
    σ → List Delivery → List (Event T A) × σ :=
  rangeLoop (subscribe.body K unmarshaller handler)

/-- Whether an event is an `Ack` or a `Nack` call. -/
def Event.isResolution {T A : Type} : Event T A → Bool
  | .Ack _ _ => true
  | .Nack _ _ _ => true
  | _ => false

/-- The `Ack` and `Nack` calls among the events, in order. -/
def resolutions {T A : Type} (es : List (Event T A)) : List (Event T A) :=
  es.filter Event.isResolution

/-- The tags of the deliveries on which `Ack` or `Nack` is called, in order. -/
def resolvedTags {T A : Type} (es : List (Event T A)) : List Nat :=
  es.filterMap fun e =>
    match e with
    | .Ack tag _ => some tag
    | .Nack tag _ _ => some tag
    | _ => none

/-- The values the handler is called with, in order. -/
def handled {T A : Type} (es : List (Event T A)) : List T :=
  es.filterMap fun e =>
    match e with
    | .HandlerCall val => some val
    | _ => none

/-- The lines written to standard output, in order. -/
def printed {T A : Type} (es : List (Event T A)) : List String :=
  es.filterMap fun e =>
    match e with
    | .Print out => some out
    | _ => none

/-- A step of the decode-and-handle sequence: a payload is decoded, the handler
is entered with a value, the handler returns. -/
inductive Step (T : Type) where
  | decode (body : Bytes)
  | enter (val : T)
  | leave
deriving DecidableEq, Repr

/-- The decode-and-handle steps among the events, in order. -/
def steps {T A : Type} (es : List (Event T A)) : List (Step T) :=
  es.filterMap fun e =>
    match e with
    | .Unmarshal body => some (Step.decode body)
    | .HandlerCall val => some (Step.enter val)
    | .HandlerReturn _ => some Step.leave
    | _ => none

/-- The decisions the handler returns, in order. -/
def returned {T A : Type} (es : List (Event T A)) : List A :=
  es.filterMap fun e =>
    match e with
    | .HandlerReturn ret => some ret
    | _ => none

/-- The handler applied to a sequence of values in turn, each call in the state
the call before it left: the decisions it returns and the state after the
last call. -/
def applyHandler {T A σ : Type} (handler : σ → T → A × σ) : σ → List T → List A × σ
  | s, [] => ([], s)
  | s, val :: vals =>
    let r := handler s val
    let rest := applyHandler handler r.2 vals
    (r.1 :: rest.1, rest.2)

/-- The result of a decoder as an option. -/
def decoded {T : Type} (r : Except GoError T) : Option T :=
  match r with
  | .ok val => some val
  | .error _ => none

/-- The two loop bodies of the source differ in one text only: this is the body
with that text as a parameter. -/
def dispatch {T A σ : Type} [DecidableEq A] (failText : String) (K : AckConsts A)
    (decoder : Bytes → Except GoError T) (handler : σ → T → A × σ)
    (s : σ) (msg : Delivery) : List (Event T A) × σ :=
  match decoder msg.Body with
  | .error err =>
    ([Event.Unmarshal msg.Body, Event.Print (failText ++ err.Error ++ "\n"),
      Event.Nack msg.DeliveryTag false false], s)
  | .ok val =>
    let r := handler s val
    let called := [Event.Unmarshal msg.Body, Event.HandlerCall val, Event.HandlerReturn r.1]
    if r.1 = K.Ack then
      (called ++ [Event.Ack msg.DeliveryTag false, Event.Print "[pubsub] Acked message\n"], r.2)
    else if r.1 = K.NackRequeue then
      (called ++ [Event.Nack msg.DeliveryTag false true,
        Event.Print "[pubsub] Nack with requeue\n"], r.2)
    else if r.1 = K.NackDiscard then
      (called ++ [Event.Nack msg.DeliveryTag false false,
        Event.Print "[pubsub] Nack with discard\n"], r.2)
    else (called, r.2)

/-! ## Concrete inputs -/

/-- A delivery on which every `Ack` and `Nack` call succeeds. -/
def Delivery.sound (tag : Nat) (body : Bytes) : Delivery :=
  { DeliveryTag := tag, Body := body, ackResult := fun _ => none,
    nackResult := fun _ _ => none }

/-- A delivery on which every `Ack` and `Nack` call returns an error. -/
def Delivery.broken (tag : Nat) (body : Bytes) : Delivery :=
  { DeliveryTag := tag, Body := body,
    ackResult := fun _ => some (GoError.base "channel closed"),
    nackResult := fun _ _ => some (GoError.base "channel closed") }

/-- A decoder at the type `Nat`: a payload of one byte decodes to that byte,
every other payload is malformed. -/
def byteDecoder : Bytes → Except GoError Nat
  | [b] => .ok b
  | _ => .error (GoError.base "unexpected end of input")

/-- A handler that counts its calls and returns the decision whose number is
the value it is given. -/
def countingHandler (count : Nat) (val : Nat) : Int × Nat :=
  ((val : Int), count + 1)

/-- A channel on which every call succeeds: the queue declared has the name
asked for, and the stream yields the deliveries `ds`. -/
def Channel.sound (id : Nat) (ds : List Delivery) : Channel :=
  { id := id
    QueueDeclare := fun name _ _ _ _ _ => .ok { Name := name }
    QueueBind := fun _ _ _ _ _ => none
    Qos := fun _ _ _ => none
    Consume := fun _ _ _ _ _ _ _ => .ok ds
    PublishWithContext := fun _ _ _ _ _ => none }

/-- A connection that opens the channel 1, on which every call succeeds. -/
def Connection.sound (ds : List Delivery) : Connection :=
  { Channel := .ok (Channel.sound 1 ds) }

/-- A connection that is closed: it opens no channel. -/
def Connection.closed : Connection :=
  { Channel := .error (GoError.base "connection closed") }

/-- Whether a call is a queue declaration. -/
def Call.isQueueDeclare : Call → Bool
  | .QueueDeclare _ _ _ _ _ _ _ => true
  | _ => false

/-- Whether a call sets the prefetch limit. -/
def Call.isQos : Call → Bool
  | .Qos _ _ _ _ => true
  | _ => false

/-- Whether a call opens a delivery stream. -/
def Call.isConsume : Call → Bool
  | .Consume _ _ _ _ _ _ _ _ => true
  | _ => false

/-- The error of a result (`none` is nil). -/
def errorOf {α : Type} (r : Except GoError α) : Option GoError :=
  match r with
  | .error err => some err
  | .ok _ => none

/-- An encoder at the type `Nat`: a value under 256 encodes to one byte, every
other value is unsupported. -/
def byteEncoder (val : Nat) : Except GoError Bytes :=
  if val < 256 then .ok [val] else .error (GoError.base "unsupported value")

/-! ## Lemmas on the loop -/

theorem SubscribeJSON_body_eq_dispatch {T A σ : Type} [DecidableEq A] (K : AckConsts A)
    (decoder : Bytes → Except GoError T) (handler : σ → T → A × σ) :
    SubscribeJSON.body K decoder handler
      = dispatch "Failed to unmarshal message: " K decoder handler := by
  funext s msg
  rfl

theorem subscribe_body_eq_dispatch {T A σ : Type} [DecidableEq A] (K : AckConsts A)
    (decoder : Bytes → Except GoError T) (handler : σ → T → A × σ) :
    subscribe.body K decoder handler
      = dispatch "Failed to decode message: " K decoder handler := by
  funext s msg
  rfl

theorem rangeLoop_nil {E σ : Type} (body : σ → Delivery → List E × σ) (s : σ) :
    rangeLoop body s [] = ([], s) := rfl

theorem rangeLoop_cons {E σ : Type} (body : σ → Delivery → List E × σ) (s : σ)
    (msg : Delivery) (rest : List Delivery) :
    rangeLoop body s (msg :: rest)
      = ((body s msg).1 ++ (rangeLoop body (body s msg).2 rest).1,
         (rangeLoop body (body s msg).2 rest).2) := rfl

theorem rangeLoop_append {E σ : Type} (body : σ → Delivery → List E × σ) (s : σ)
    (xs ys : List Delivery) :
    rangeLoop body s (xs ++ ys)
      = ((rangeLoop body s xs).1 ++ (rangeLoop body (rangeLoop body s xs).2 ys).1,
         (rangeLoop body (rangeLoop body s xs).2 ys).2) := by
  induction xs generalizing s with
  | nil => simp [rangeLoop_nil]
  | cons x xs ih => simp [rangeLoop_cons, ih, List.append_assoc]

/-- The loop over a stream split at one delivery: the events before it, the
events of its iteration, the events after it. -/
theorem rangeLoop_split {E σ : Type} (body : σ → Delivery → List E × σ) (s : σ)
    (pre post : List Delivery) (msg : Delivery) :
    rangeLoop body s (pre ++ msg :: post)
      = ((rangeLoop body s pre).1 ++ ((body (rangeLoop body s pre).2 msg).1
            ++ (rangeLoop body (body (rangeLoop body s pre).2 msg).2 post).1),
         (rangeLoop body (body (rangeLoop body s pre).2 msg).2 post).2) := by
  rw [rangeLoop_append, rangeLoop_cons]

theorem SubscribeJSON_loop_eq {T A σ : Type} [DecidableEq A] (K : AckConsts A)
    (decoder : Bytes → Except GoError T) (handler : σ → T → A × σ) :
    SubscribeJSON.loop K decoder handler
      = rangeLoop (dispatch "Failed to unmarshal message: " K decoder handler) := by
  unfold SubscribeJSON.loop
  rw [SubscribeJSON_body_eq_dispatch]

theorem subscribe_loop_eq {T A σ : Type} [DecidableEq A] (K : AckConsts A)
    (decoder : Bytes → Except GoError T) (handler : σ → T → A × σ) :
    subscribe.loop K decoder handler
      = rangeLoop (dispatch "Failed to decode message: " K decoder handler) := by
  unfold subscribe.loop
  rw [subscribe_body_eq_dispatch]

theorem resolutions_append {T A : Type} (xs ys : List (Event T A)) :
    resolutions (xs ++ ys) = resolutions xs ++ resolutions ys := by
  simp [resolutions]

theorem resolvedTags_append {T A : Type} (xs ys : List (Event T A)) :
    resolvedTags (xs ++ ys) = resolvedTags xs ++ resolvedTags ys := by
  simp [resolvedTags]

theorem handled_append {T A : Type} (xs ys : List (Event T A)) :
    handled (xs ++ ys) = handled xs ++ handled ys := by
  simp [handled]

theorem steps_append {T A : Type} (xs ys : List (Event T A)) :
    steps (xs ++ ys) = steps xs ++ steps ys := by
  simp [steps]

theorem returned_append {T A : Type} (xs ys : List (Event T A)) :
    returned (xs ++ ys) = returned xs ++ returned ys := by
  simp [returned]

theorem applyHandler_state_eq_foldl {T A σ : Type} (handler : σ → T → A × σ) (s : σ)
    (vals : List T) :
    (applyHandler handler s vals).2 = vals.foldl (fun st val => (handler st val).2) s := by
  induction vals generalizing s with
  | nil => rfl
  | cons val rest ih => simp [applyHandler, ih]

section Dispatch

variable {T A σ : Type} [DecidableEq A] (failText : String) (K : AckConsts A)
  (decoder : Bytes → Except GoError T) (handler : σ → T → A × σ)

theorem dispatch_error (s : σ) (msg : Delivery) (err : GoError)
    (h : decoder msg.Body = .error err) :
    dispatch failText K decoder handler s msg
      = ([Event.Unmarshal msg.Body, Event.Print (failText ++ err.Error ++ "\n"),
          Event.Nack msg.DeliveryTag false false], s) := by
  unfold dispatch
  rw [h]

theorem dispatch_state_ok (s : σ) (msg : Delivery) (val : T)
    (h : decoder msg.Body = .ok val) :
    (dispatch failText K decoder handler s msg).2 = (handler s val).2 := by
  unfold dispatch
  rw [h]
  dsimp only
  split_ifs <;> rfl

theorem dispatch_resolutions_ack (s : σ) (msg : Delivery) (val : T)
    (h : decoder msg.Body = .ok val) (hr : (handler s val).1 = K.Ack) :
    resolutions (dispatch failText K decoder handler s msg).1
      = [Event.Ack msg.DeliveryTag false] := by
  unfold dispatch
  rw [h]
  simp [hr, resolutions, Event.isResolution]

theorem dispatch_resolutions_requeue (hK : K.Distinct) (s : σ) (msg : Delivery) (val : T)
    (h : decoder msg.Body = .ok val) (hr : (handler s val).1 = K.NackRequeue) :
    resolutions (dispatch failText K decoder handler s msg).1
      = [Event.Nack msg.DeliveryTag false true] := by
  have h1 : K.NackRequeue ≠ K.Ack := fun e => hK.1 e.symm
  unfold dispatch
  rw [h]
  simp [hr, h1, resolutions, Event.isResolution]

theorem dispatch_resolutions_discard (hK : K.Distinct) (s : σ) (msg : Delivery) (val : T)
    (h : decoder msg.Body = .ok val) (hr : (handler s val).1 = K.NackDiscard) :
    resolutions (dispatch failText K decoder handler s msg).1
      = [Event.Nack msg.DeliveryTag false false] := by
  have h1 : K.NackDiscard ≠ K.Ack := fun e => hK.2.1 e.symm
  have h2 : K.NackDiscard ≠ K.NackRequeue := fun e => hK.2.2 e.symm
  unfold dispatch
  rw [h]
  simp [hr, h1, h2, resolutions, Event.isResolution]

theorem dispatch_handled (s : σ) (msg : Delivery) :
    handled (dispatch failText K decoder handler s msg).1
      = (decoded (decoder msg.Body)).toList := by
  unfold dispatch
  cases h : decoder msg.Body with
  | error err => simp [handled, decoded]
  | ok val =>
    dsimp only
    split_ifs <;> simp [handled, decoded]

theorem dispatch_steps (s : σ) (msg : Delivery) :
    steps (dispatch failText K decoder handler s msg).1
      = match decoder msg.Body with
        | .ok val => [Step.decode msg.Body, Step.enter val, Step.leave]
        | .error _ => [Step.decode msg.Body] := by
  unfold dispatch
  cases h : decoder msg.Body with
  | error err => simp [steps]
  | ok val =>
    dsimp only
    split_ifs <;> simp [steps]

theorem dispatch_congr (s : σ) (msg msg2 : Delivery)
    (htag : msg.DeliveryTag = msg2.DeliveryTag) (hbody : msg.Body = msg2.Body) :
    dispatch failText K decoder handler s msg
      = dispatch failText K decoder handler s msg2 := by
  unfold dispatch
  rw [htag, hbody]

theorem rangeLoop_dispatch_handled (s : σ) (ds : List Delivery) :
    handled (rangeLoop (dispatch failText K decoder handler) s ds).1
      = ds.filterMap (fun msg => decoded (decoder msg.Body)) := by
  induction ds generalizing s with
  | nil => simp [rangeLoop_nil, handled]
  | cons msg rest ih =>
    rw [rangeLoop_cons]
    dsimp only
    rw [handled_append, ih, dispatch_handled]
    cases h : decoded (decoder msg.Body) <;> simp [List.filterMap_cons, h]

theorem rangeLoop_dispatch_steps (s : σ) (ds : List Delivery) :
    steps (rangeLoop (dispatch failText K decoder handler) s ds).1
      = ds.flatMap (fun msg =>
          match decoder msg.Body with
          | .ok val => [Step.decode msg.Body, Step.enter val, Step.leave]
          | .error _ => [Step.decode msg.Body]) := by
  induction ds generalizing s with
  | nil => simp [rangeLoop_nil, steps]
  | cons msg rest ih =>
    rw [rangeLoop_cons]
    dsimp only
    rw [steps_append, ih, dispatch_steps, List.flatMap_cons]

theorem dispatch_returned (s : σ) (msg : Delivery) :
    returned (dispatch failText K decoder handler s msg).1
      = match decoder msg.Body with
        | .ok val => [(handler s val).1]
        | .error _ => [] := by
  unfold dispatch
  cases h : decoder msg.Body with
  | error err => simp [returned]
  | ok val =>
    dsimp only
    split_ifs <;> simp [returned]

theorem dispatch_state (s : σ) (msg : Delivery) :
    (dispatch failText K decoder handler s msg).2
      = match decoder msg.Body with
        | .ok val => (handler s val).2
        | .error _ => s := by
  unfold dispatch
  cases h : decoder msg.Body with
  | error err => rfl
  | ok val =>
    dsimp only
    split_ifs <;> rfl

theorem rangeLoop_dispatch_applyHandler (s : σ) (ds : List Delivery) :
    (returned (rangeLoop (dispatch failText K decoder handler) s ds).1,
      (rangeLoop (dispatch failText K decoder handler) s ds).2)
      = applyHandler handler s (ds.filterMap (fun msg => decoded (decoder msg.Body))) := by
  induction ds generalizing s with
  | nil => simp [rangeLoop_nil, returned, applyHandler]
  | cons msg rest ih =>
    rw [rangeLoop_cons]
    dsimp only
    rw [returned_append, dispatch_returned, dispatch_state]
    cases h : decoder msg.Body with
    | error err =>
      have hd : decoded (decoder msg.Body) = none := by rw [h]; rfl
      rw [List.filterMap_cons, hd]
      exact ih s
    | ok val =>
      have hd : decoded (decoder msg.Body) = some val := by rw [h]; rfl
      rw [List.filterMap_cons, hd]
      have hrest := ih (handler s val).2
      simp only [applyHandler, List.singleton_append]
      rw [← hrest]

theorem rangeLoop_dispatch_congr (s : σ) (ds ds2 : List Delivery)
    (h : ds.map (fun msg => (msg.DeliveryTag, msg.Body))
          = ds2.map (fun msg => (msg.DeliveryTag, msg.Body))) :
    rangeLoop (dispatch failText K decoder handler) s ds
      = rangeLoop (dispatch failText K decoder handler) s ds2 := by
  induction ds generalizing s ds2 with
  | nil =>
    cases ds2 with
    | nil => rfl
    | cons y ys => simp at h
  | cons x xs ih =>
    cases ds2 with
    | nil => simp at h
    | cons y ys =>
      simp only [List.map_cons, List.cons.injEq, Prod.mk.injEq] at h
      rw [rangeLoop_cons, rangeLoop_cons,
        dispatch_congr failText K decoder handler s x y h.1.1 h.1.2, ih _ ys h.2]

theorem rangeLoop_dispatch_resolutions_split (s : σ) (pre post : List Delivery)
    (msg : Delivery) (val : T) (hdec : decoder msg.Body = .ok val) (ev : Event T A)
    (hev : resolutions (dispatch failText K decoder handler
      (rangeLoop (dispatch failText K decoder handler) s pre).2 msg).1 = [ev]) :
    resolutions (rangeLoop (dispatch failText K decoder handler) s (pre ++ msg :: post)).1
      = resolutions (rangeLoop (dispatch failText K decoder handler) s pre).1
        ++ ev :: resolutions (rangeLoop (dispatch failText K decoder handler)
            (handler (rangeLoop (dispatch failText K decoder handler) s pre).2 val).2 post).1 := by
  rw [rangeLoop_split]
  dsimp only
  rw [resolutions_append, resolutions_append, hev,
    dispatch_state_ok failText K decoder handler _ msg val hdec]
  rfl

end Dispatch

/-! ## The consumption loop: decisions and acknowledgments -/

theorem dispatch_resolvedTags_sublist {T A σ : Type} [DecidableEq A] (failText : String)
    (K : AckConsts A) (decoder : Bytes → Except GoError T) (handler : σ → T → A × σ)
    (s : σ) (msg : Delivery) :
    (resolvedTags (dispatch failText K decoder handler s msg).1).Sublist [msg.DeliveryTag] := by
  unfold dispatch
  cases h : decoder msg.Body with
  | error err => simp [resolvedTags]
  | ok val =>
    dsimp only
    split_ifs <;> simp [resolvedTags]

theorem dispatch_resolvedTags_known {T A σ : Type} [DecidableEq A] (failText : String)
    (K : AckConsts A) (decoder : Bytes → Except GoError T) (handler : σ → T → A × σ)
    (hknown : ∀ s val, (handler s val).1 = K.Ack ∨ (handler s val).1 = K.NackRequeue
      ∨ (handler s val).1 = K.NackDiscard)
    (s : σ) (msg : Delivery) :
    resolvedTags (dispatch failText K decoder handler s msg).1 = [msg.DeliveryTag] := by
  unfold dispatch
  cases h : decoder msg.Body with
  | error err => simp [resolvedTags]
  | ok val =>
    dsimp only
    split_ifs with h1 h2 h3
    · simp [resolvedTags]
    · simp [resolvedTags]
    · simp [resolvedTags]
    · rcases hknown s val with h4 | h4 | h4
      · exact absurd h4 h1
      · exact absurd h4 h2
      · exact absurd h4 h3

/-- Whatever the handler returns, no delivery is resolved twice and no call is
made on anything but the deliveries of the stream, in their order: the tags of
the `Ack` and `Nack` calls are a subsequence of the tags of the stream. -/
theorem resolved_at_most_once {T A σ : Type} [DecidableEq A] (K : AckConsts A)
    (decoder : Bytes → Except GoError T) (handler : σ → T → A × σ) (s : σ)
    (ds : List Delivery) :
    (resolvedTags (SubscribeJSON.loop K decoder handler s ds).1).Sublist
        (ds.map Delivery.DeliveryTag)
    ∧ (resolvedTags (subscribe.loop K decoder handler s ds).1).Sublist
        (ds.map Delivery.DeliveryTag) := by
  have key : ∀ (failText : String) (s : σ),
      (resolvedTags (rangeLoop (dispatch failText K decoder handler) s ds).1).Sublist
        (ds.map Delivery.DeliveryTag) := by
    intro failText
    induction ds with
    | nil => intro s; simp [rangeLoop_nil, resolvedTags]
    | cons msg rest ih =>
      intro s
      rw [rangeLoop_cons]
      dsimp only
      rw [resolvedTags_append, List.map_cons]
      exact (dispatch_resolvedTags_sublist failText K decoder handler s msg).append (ih _)
  rw [SubscribeJSON_loop_eq, subscribe_loop_eq]
  exact ⟨key _ s, key _ s⟩

/-- When the handler returns nothing but `Ack`, `NackRequeue` and `NackDiscard`,
each delivery of the stream is resolved exactly once, in the order of the
stream. -/
theorem resolved_once_of_known_decisions {T A σ : Type} [DecidableEq A] (K : AckConsts A)
    (decoder : Bytes → Except GoError T) (handler : σ → T → A × σ)
    (hknown : ∀ s val, (handler s val).1 = K.Ack ∨ (handler s val).1 = K.NackRequeue
      ∨ (handler s val).1 = K.NackDiscard)
    (s : σ) (ds : List Delivery) :
    resolvedTags (SubscribeJSON.loop K decoder handler s ds).1 = ds.map Delivery.DeliveryTag
    ∧ resolvedTags (subscribe.loop K decoder handler s ds).1
        = ds.map Delivery.DeliveryTag := by
  have key : ∀ (failText : String) (s : σ),
      resolvedTags (rangeLoop (dispatch failText K decoder handler) s ds).1
        = ds.map Delivery.DeliveryTag := by
    intro failText
    induction ds with
    | nil => intro s; simp [rangeLoop_nil, resolvedTags]
    | cons msg rest ih =>
      intro s
      rw [rangeLoop_cons]
      dsimp only
      rw [resolvedTags_append, List.map_cons, ih,
        dispatch_resolvedTags_known failText K decoder handler hknown]
      rfl
  rw [SubscribeJSON_loop_eq, subscribe_loop_eq]
  exact ⟨key _ s, key _ s⟩

/-- C1: in the loop of `SubscribeJSON` and in the loop of `subscribe`, when a
delivery `msg` of the stream decodes to `val` and the handler, called in the
state the deliveries before `msg` left, returns `Ack`, the loop calls
`msg.Ack(false)`; when it returns `NackRequeue`, the loop calls
`msg.Nack(false, true)`; when it returns `NackDiscard`, the loop calls
`msg.Nack(false, false)`.  That call is the only `Ack` or `Nack` call between
those of the deliveries before `msg` and those of the deliveries after it, and
its `multiple` flag is false. -/
theorem handler_decision_resolves_delivery {T A σ : Type} [DecidableEq A] (K : AckConsts A)
    (hK : K.Distinct) (decoder : Bytes → Except GoError T) (handler : σ → T → A × σ)
    (s : σ) (pre post : List Delivery) (msg : Delivery) (val : T)
    (hdec : decoder msg.Body = .ok val)
    (loop : σ → List Delivery → List (Event T A) × σ)
    (hloop : loop = SubscribeJSON.loop K decoder handler
      ∨ loop = subscribe.loop K decoder handler) :
    ((handler (loop s pre).2 val).1 = K.Ack →
        resolutions (loop s (pre ++ msg :: post)).1
          = resolutions (loop s pre).1 ++ Event.Ack msg.DeliveryTag false
              :: resolutions (loop (handler (loop s pre).2 val).2 post).1)
    ∧ ((handler (loop s pre).2 val).1 = K.NackRequeue →
        resolutions (loop s (pre ++ msg :: post)).1
          = resolutions (loop s pre).1 ++ Event.Nack msg.DeliveryTag false true
              :: resolutions (loop (handler (loop s pre).2 val).2 post).1)
    ∧ ((handler (loop s pre).2 val).1 = K.NackDiscard →
        resolutions (loop s (pre ++ msg :: post)).1
          = resolutions (loop s pre).1 ++ Event.Nack msg.DeliveryTag false false
              :: resolutions (loop (handler (loop s pre).2 val).2 post).1) := by
  rcases hloop with h | h
  · subst h
    rw [SubscribeJSON_loop_eq]
    exact ⟨fun hr => rangeLoop_dispatch_resolutions_split _ K decoder handler s pre post msg
        val hdec _ (dispatch_resolutions_ack _ K decoder handler _ msg val hdec hr),
      fun hr => rangeLoop_dispatch_resolutions_split _ K decoder handler s pre post msg
        val hdec _ (dispatch_resolutions_requeue _ K decoder handler hK _ msg val hdec hr),
      fun hr => rangeLoop_dispatch_resolutions_split _ K decoder handler s pre post msg
        val hdec _ (dispatch_resolutions_discard _ K decoder handler hK _ msg val hdec hr)⟩
  · subst h
    rw [subscribe_loop_eq]
    exact ⟨fun hr => rangeLoop_dispatch_resolutions_split _ K decoder handler s pre post msg
        val hdec _ (dispatch_resolutions_ack _ K decoder handler _ msg val hdec hr),
      fun hr => rangeLoop_dispatch_resolutions_split _ K decoder handler s pre post msg
        val hdec _ (dispatch_resolutions_requeue _ K decoder handler hK _ msg val hdec hr),
      fun hr => rangeLoop_dispatch_resolutions_split _ K decoder handler s pre post msg
        val hdec _ (dispatch_resolutions_discard _ K decoder handler hK _ msg val hdec hr)⟩

/-- The decision mapping on a stream of three deliveries whose second one
decodes to 1: the handler returns `NackRequeue` and the loop of `subscribe`
calls `Nack(false, true)` on it. -/
theorem handler_decision_resolves_delivery_witness :
    AckTypeInt.Distinct
    ∧ byteDecoder (Delivery.sound 2 [1]).Body = .ok 1
    ∧ (countingHandler 1 1).1 = AckTypeInt.NackRequeue
    ∧ resolutions (subscribe.loop AckTypeInt byteDecoder countingHandler 0
          ([Delivery.sound 1 [0]] ++ Delivery.sound 2 [1] :: [Delivery.sound 3 [2]])).1
        = resolutions (subscribe.loop AckTypeInt byteDecoder countingHandler 0
            [Delivery.sound 1 [0]]).1
          ++ Event.Nack 2 false true
            :: resolutions (subscribe.loop AckTypeInt byteDecoder countingHandler 2
                [Delivery.sound 3 [2]]).1 :=
  ⟨⟨by decide, by decide, by decide⟩, rfl, rfl,
    (handler_decision_resolves_delivery AckTypeInt ⟨by decide, by decide, by decide⟩
      byteDecoder countingHandler 0 [Delivery.sound 1 [0]] [Delivery.sound 3 [2]]
      (Delivery.sound 2 [1]) 1 rfl (subscribe.loop AckTypeInt byteDecoder countingHandler)
      (Or.inr rfl)).2.1 rfl⟩

/-- C2: with `type AckType int` and the constants 0, 1, 2, a handler that
returns `AckType(3)` on a delivery that decodes leaves that delivery without
any `Ack` or `Nack` call, in the loop of `SubscribeJSON` and in the loop of
`subscribe`: the `switch` has no `default` case.  Here the stream is the
delivery 5, which decodes to 3, then the delivery 6, which decodes to 0; the
only call made is `Ack` on the delivery 6. -/
theorem unknown_decision_leaves_delivery_unresolved :
    decoded (byteDecoder (Delivery.sound 5 [3]).Body) = some 3
    ∧ (countingHandler 0 3).1 = 3
    ∧ resolutions (SubscribeJSON.loop AckTypeInt byteDecoder countingHandler 0
        [Delivery.sound 5 [3], Delivery.sound 6 [0]]).1 = [Event.Ack 6 false]
    ∧ resolutions (subscribe.loop AckTypeInt byteDecoder countingHandler 0
        [Delivery.sound 5 [3], Delivery.sound 6 [0]]).1 = [Event.Ack 6 false] := by
  decide

/-- C3: in the loop of `SubscribeJSON` and in the loop of `subscribe`, a
delivery `msg` whose payload fails to decode gets the diagnostic line and
`msg.Nack(false, false)` and nothing else: the handler is not called for it
(its state goes unchanged to the deliveries after `msg`), and the loop goes on
with the deliveries after `msg`. -/
theorem decode_failure_discards_and_continues {T A σ : Type} [DecidableEq A]
    (K : AckConsts A) (decoder : Bytes → Except GoError T) (handler : σ → T → A × σ)
    (s : σ) (pre post : List Delivery) (msg : Delivery) (err : GoError)
    (herr : decoder msg.Body = .error err) :
    SubscribeJSON.loop K decoder handler s (pre ++ msg :: post)
        = ((SubscribeJSON.loop K decoder handler s pre).1
            ++ ([Event.Unmarshal msg.Body,
                 Event.Print ("Failed to unmarshal message: " ++ err.Error ++ "\n"),
                 Event.Nack msg.DeliveryTag false false]
            ++ (SubscribeJSON.loop K decoder handler
                  (SubscribeJSON.loop K decoder handler s pre).2 post).1),
           (SubscribeJSON.loop K decoder handler
              (SubscribeJSON.loop K decoder handler s pre).2 post).2)
    ∧ subscribe.loop K decoder handler s (pre ++ msg :: post)
        = ((subscribe.loop K decoder handler s pre).1
            ++ ([Event.Unmarshal msg.Body,
                 Event.Print ("Failed to decode message: " ++ err.Error ++ "\n"),
                 Event.Nack msg.DeliveryTag false false]
            ++ (subscribe.loop K decoder handler
                  (subscribe.loop K decoder handler s pre).2 post).1),
           (subscribe.loop K decoder handler
              (subscribe.loop K decoder handler s pre).2 post).2) := by
  rw [SubscribeJSON_loop_eq, subscribe_loop_eq]
  constructor
  · rw [rangeLoop_split, dispatch_error _ K decoder handler _ msg err herr]
  · rw [rangeLoop_split, dispatch_error _ K decoder handler _ msg err herr]

/-- The decode failure on a stream of three deliveries whose second one has an
empty payload. -/
theorem decode_failure_discards_and_continues_witness :
    byteDecoder (Delivery.sound 2 []).Body
        = .error (GoError.base "unexpected end of input")
    ∧ SubscribeJSON.loop AckTypeInt byteDecoder countingHandler 0
          ([Delivery.sound 1 [0]] ++ Delivery.sound 2 [] :: [Delivery.sound 3 [2]])
        = ((SubscribeJSON.loop AckTypeInt byteDecoder countingHandler 0
              [Delivery.sound 1 [0]]).1
            ++ ([Event.Unmarshal [],
                 Event.Print ("Failed to unmarshal message: "
                   ++ (GoError.base "unexpected end of input").Error ++ "\n"),
                 Event.Nack 2 false false]
            ++ (SubscribeJSON.loop AckTypeInt byteDecoder countingHandler 1
                  [Delivery.sound 3 [2]]).1), 2)
    ∧ subscribe.loop AckTypeInt byteDecoder countingHandler 0
          ([Delivery.sound 1 [0]] ++ Delivery.sound 2 [] :: [Delivery.sound 3 [2]])
        = ((subscribe.loop AckTypeInt byteDecoder countingHandler 0
              [Delivery.sound 1 [0]]).1
            ++ ([Event.Unmarshal [],
                 Event.Print ("Failed to decode message: "
                   ++ (GoError.base "unexpected end of input").Error ++ "\n"),
                 Event.Nack 2 false false]
            ++ (subscribe.loop AckTypeInt byteDecoder countingHandler 1
                  [Delivery.sound 3 [2]]).1), 2) :=
  ⟨rfl, decode_failure_discards_and_continues AckTypeInt byteDecoder countingHandler 0
    [Delivery.sound 1 [0]] [Delivery.sound 3 [2]] (Delivery.sound 2 [])
    (GoError.base "unexpected end of input") rfl⟩

/-- C4: for every finite stream, in the loop of `SubscribeJSON` and in the loop
of `subscribe`, the values the handler is called with are the decoded values of
the deliveries that decode, in the order of the stream; the decode and handler
steps of the loop are, delivery after delivery, the decoding of its payload
followed, when it decodes, by one entry into the handler and the return from
it, so the handler has returned when the next payload is decoded; and the
handler is really applied once to each of those values, in that order, each
call in the state the call before it left: the decisions it returns and the
state it is left in at the end of the stream are those of the handler run over
the decoded values, and that state is the fold of the handler over them. -/
theorem handler_calls_follow_stream {T A σ : Type} [DecidableEq A] (K : AckConsts A)
    (decoder : Bytes → Except GoError T) (handler : σ → T → A × σ) (s : σ)
    (ds : List Delivery) :
    (handled (SubscribeJSON.loop K decoder handler s ds).1
        = ds.filterMap (fun msg => decoded (decoder msg.Body))
      ∧ steps (SubscribeJSON.loop K decoder handler s ds).1
        = ds.flatMap (fun msg =>
            match decoder msg.Body with
            | .ok val => [Step.decode msg.Body, Step.enter val, Step.leave]
            | .error _ => [Step.decode msg.Body])
      ∧ returned (SubscribeJSON.loop K decoder handler s ds).1
        = (applyHandler handler s
            (ds.filterMap (fun msg => decoded (decoder msg.Body)))).1
      ∧ (SubscribeJSON.loop K decoder handler s ds).2
        = (applyHandler handler s
            (ds.filterMap (fun msg => decoded (decoder msg.Body)))).2
      ∧ (SubscribeJSON.loop K decoder handler s ds).2
        = (ds.filterMap (fun msg => decoded (decoder msg.Body))).foldl
            (fun st val => (handler st val).2) s)
    ∧ (handled (subscribe.loop K decoder handler s ds).1
        = ds.filterMap (fun msg => decoded (decoder msg.Body))
      ∧ steps (subscribe.loop K decoder handler s ds).1
        = ds.flatMap (fun msg =>
            match decoder msg.Body with
            | .ok val => [Step.decode msg.Body, Step.enter val, Step.leave]
            | .error _ => [Step.decode msg.Body])
      ∧ returned (subscribe.loop K decoder handler s ds).1
        = (applyHandler handler s
            (ds.filterMap (fun msg => decoded (decoder msg.Body)))).1
      ∧ (subscribe.loop K decoder handler s ds).2
        = (applyHandler handler s
            (ds.filterMap (fun msg => decoded (decoder msg.Body)))).2
      ∧ (subscribe.loop K decoder handler s ds).2
        = (ds.filterMap (fun msg => decoded (decoder msg.Body))).foldl
            (fun st val => (handler st val).2) s) := by
  have key : ∀ failText : String,
      handled (rangeLoop (dispatch failText K decoder handler) s ds).1
        = ds.filterMap (fun msg => decoded (decoder msg.Body))
      ∧ steps (rangeLoop (dispatch failText K decoder handler) s ds).1
        = ds.flatMap (fun msg =>
            match decoder msg.Body with
            | .ok val => [Step.decode msg.Body, Step.enter val, Step.leave]
            | .error _ => [Step.decode msg.Body])
      ∧ returned (rangeLoop (dispatch failText K decoder handler) s ds).1
        = (applyHandler handler s
            (ds.filterMap (fun msg => decoded (decoder msg.Body)))).1
      ∧ (rangeLoop (dispatch failText K decoder handler) s ds).2
        = (applyHandler handler s
            (ds.filterMap (fun msg => decoded (decoder msg.Body)))).2
      ∧ (rangeLoop (dispatch failText K decoder handler) s ds).2
        = (ds.filterMap (fun msg => decoded (decoder msg.Body))).foldl
            (fun st val => (handler st val).2) s := by
    intro failText
    have hrun := rangeLoop_dispatch_applyHandler failText K decoder handler s ds
    have hstate := congrArg Prod.snd hrun
    dsimp only at hstate
    refine ⟨rangeLoop_dispatch_handled failText K decoder handler s ds,
      rangeLoop_dispatch_steps failText K decoder handler s ds,
      congrArg Prod.fst hrun, hstate, ?_⟩
    rw [hstate, applyHandler_state_eq_foldl]
  rw [SubscribeJSON_loop_eq, subscribe_loop_eq]
  exact ⟨key _, key _⟩

/-- The handler calls on a stream of three deliveries whose second one does not
decode: the counting handler is called with 0 and with 2, returns 0 and 2, and
has counted two calls at the end. -/
theorem handler_calls_follow_stream_witness :
    handled (subscribe.loop AckTypeInt byteDecoder countingHandler 0
        [Delivery.sound 1 [0], Delivery.sound 2 [], Delivery.sound 3 [2]]).1 = [0, 2]
    ∧ returned (subscribe.loop AckTypeInt byteDecoder countingHandler 0
        [Delivery.sound 1 [0], Delivery.sound 2 [], Delivery.sound 3 [2]]).1 = [0, 2]
    ∧ (subscribe.loop AckTypeInt byteDecoder countingHandler 0
        [Delivery.sound 1 [0], Delivery.sound 2 [], Delivery.sound 3 [2]]).2 = 2
    ∧ (SubscribeJSON.loop AckTypeInt byteDecoder countingHandler 0
        [Delivery.sound 1 [0], Delivery.sound 2 [], Delivery.sound 3 [2]]).2 = 2 :=
  ⟨(handler_calls_follow_stream AckTypeInt byteDecoder countingHandler 0
      [Delivery.sound 1 [0], Delivery.sound 2 [], Delivery.sound 3 [2]]).2.1,
    (handler_calls_follow_stream AckTypeInt byteDecoder countingHandler 0
      [Delivery.sound 1 [0], Delivery.sound 2 [], Delivery.sound 3 [2]]).2.2.2.1,
    (handler_calls_follow_stream AckTypeInt byteDecoder countingHandler 0
      [Delivery.sound 1 [0], Delivery.sound 2 [], Delivery.sound 3 [2]]).2.2.2.2.2,
    (handler_calls_follow_stream AckTypeInt byteDecoder countingHandler 0
      [Delivery.sound 1 [0], Delivery.sound 2 [], Delivery.sound 3 [2]]).1.2.2.2.2⟩

/-- C10, as stated, fails: on a delivery whose `Ack` call returns an error the
loop of `SubscribeJSON` and the loop of `subscribe` write the line of a
successful acknowledgment and no other line, as they do on the same delivery
when the call succeeds. -/
theorem ack_failure_is_not_reported :
    (Delivery.broken 1 [0]).ackResult false = some (GoError.base "channel closed")
    ∧ (Delivery.sound 1 [0]).ackResult false = none
    ∧ printed (SubscribeJSON.loop AckTypeInt byteDecoder countingHandler 0
        [Delivery.broken 1 [0]]).1 = ["[pubsub] Acked message\n"]
    ∧ printed (SubscribeJSON.loop AckTypeInt byteDecoder countingHandler 0
        [Delivery.sound 1 [0]]).1 = ["[pubsub] Acked message\n"]
    ∧ printed (subscribe.loop AckTypeInt byteDecoder countingHandler 0
        [Delivery.broken 1 [0]]).1 = ["[pubsub] Acked message\n"]
    ∧ printed (subscribe.loop AckTypeInt byteDecoder countingHandler 0
        [Delivery.sound 1 [0]]).1 = ["[pubsub] Acked message\n"] :=
  ⟨rfl, rfl, rfl, rfl, rfl, rfl⟩

/-- C10, amended: the loop of `SubscribeJSON` and the loop of `subscribe`
discard the error an `Ack` or `Nack` call returns.  Two streams whose
deliveries have the same tags and payloads, whatever their `Ack` and `Nack`
calls return, give the same events (the same decodings, handler calls, `Ack`
and `Nack` calls and written lines, for every delivery of the stream) and the
same final handler state: no acknowledgment error ends the loop or changes how
a delivery is decoded, handled and resolved. -/
theorem ack_errors_are_discarded {T A σ : Type} [DecidableEq A] (K : AckConsts A)
    (decoder : Bytes → Except GoError T) (handler : σ → T → A × σ) (s : σ)
    (ds ds2 : List Delivery)
    (h : ds.map (fun msg => (msg.DeliveryTag, msg.Body))
          = ds2.map (fun msg => (msg.DeliveryTag, msg.Body))) :
    SubscribeJSON.loop K decoder handler s ds = SubscribeJSON.loop K decoder handler s ds2
    ∧ subscribe.loop K decoder handler s ds = subscribe.loop K decoder handler s ds2 := by
  rw [SubscribeJSON_loop_eq, subscribe_loop_eq]
  exact ⟨rangeLoop_dispatch_congr _ K decoder handler s ds ds2 h,
    rangeLoop_dispatch_congr _ K decoder handler s ds ds2 h⟩

/-- A stream on which two of the three acknowledgment calls fail gives the
events of the stream on which all three succeed. -/
theorem ack_errors_are_discarded_witness :
    [Delivery.broken 1 [0], Delivery.sound 2 [1], Delivery.broken 3 [2]].map
        (fun msg => (msg.DeliveryTag, msg.Body))
      = [Delivery.sound 1 [0], Delivery.sound 2 [1], Delivery.sound 3 [2]].map
        (fun msg => (msg.DeliveryTag, msg.Body))
    ∧ SubscribeJSON.loop AckTypeInt byteDecoder countingHandler 0
          [Delivery.broken 1 [0], Delivery.sound 2 [1], Delivery.broken 3 [2]]
        = SubscribeJSON.loop AckTypeInt byteDecoder countingHandler 0
          [Delivery.sound 1 [0], Delivery.sound 2 [1], Delivery.sound 3 [2]]
    ∧ subscribe.loop AckTypeInt byteDecoder countingHandler 0
          [Delivery.broken 1 [0], Delivery.sound 2 [1], Delivery.broken 3 [2]]
        = subscribe.loop AckTypeInt byteDecoder countingHandler 0
          [Delivery.sound 1 [0], Delivery.sound 2 [1], Delivery.sound 3 [2]] :=
  ⟨rfl, ack_errors_are_discarded AckTypeInt byteDecoder countingHandler 0
    [Delivery.broken 1 [0], Delivery.sound 2 [1], Delivery.broken 3 [2]]
    [Delivery.sound 1 [0], Delivery.sound 2 [1], Delivery.sound 3 [2]] rfl⟩

/-! ## The topology manager -/

/-- The queue declarations of `DeclareAndBind`: there is one when the channel
opens, with the name, the flags and the argument table computed at lines
63-73, and none otherwise. -/
theorem DeclareAndBind_declarations (conn : Connection) (exchange queueName key : String)
    (simpleQueueType : Int) :
    (DeclareAndBind conn exchange queueName key simpleQueueType).1.filter Call.isQueueDeclare
      = match conn.Channel with
        | .error _ => []
        | .ok ch =>
          [Call.QueueDeclare ch.id queueName (decide (simpleQueueType = QueueTypeDurable))
            (decide (simpleQueueType = QueueTypeTransient))
            (decide (simpleQueueType = QueueTypeTransient)) false
            (if queueName ≠ "game_logs" then
              some [("x-dead-letter-exchange", ExchangePerilDead)] else none)] := by
  unfold DeclareAndBind
  cases hc : conn.Channel with
  | error err => simp [Call.isQueueDeclare]
  | ok ch =>
    dsimp only
    cases hq : ch.QueueDeclare queueName (decide (simpleQueueType = QueueTypeDurable))
        (decide (simpleQueueType = QueueTypeTransient))
        (decide (simpleQueueType = QueueTypeTransient)) false
        (if queueName ≠ "game_logs" then
          some [("x-dead-letter-exchange", ExchangePerilDead)] else none) with
    | error err => simp [Call.isQueueDeclare]
    | ok q =>
      dsimp only
      cases hb : ch.QueueBind q.Name key exchange false none <;>
        simp [Call.isQueueDeclare]

theorem DeclareAndBind_declare_mem (conn : Connection) (exchange queueName key : String)
    (simpleQueueType : Int) (id : Nat) (name : String)
    (durable autoDelete exclusive noWait : Bool) (args : Table)
    (h : Call.QueueDeclare id name durable autoDelete exclusive noWait args
      ∈ (DeclareAndBind conn exchange queueName key simpleQueueType).1) :
    ∃ ch, conn.Channel = .ok ch ∧ id = ch.id ∧ name = queueName
      ∧ durable = decide (simpleQueueType = QueueTypeDurable)
      ∧ autoDelete = decide (simpleQueueType = QueueTypeTransient)
      ∧ exclusive = decide (simpleQueueType = QueueTypeTransient)
      ∧ noWait = false
      ∧ args = (if queueName ≠ "game_logs" then
          some [("x-dead-letter-exchange", ExchangePerilDead)] else none) := by
  have hm : Call.QueueDeclare id name durable autoDelete exclusive noWait args
      ∈ (DeclareAndBind conn exchange queueName key simpleQueueType).1.filter
          Call.isQueueDeclare := List.mem_filter.2 ⟨h, rfl⟩
  rw [DeclareAndBind_declarations] at hm
  cases hc : conn.Channel with
  | error err => rw [hc] at hm; simp at hm
  | ok ch =>
    rw [hc] at hm
    simp only [List.mem_singleton, Call.QueueDeclare.injEq] at hm
    exact ⟨ch, rfl, hm.1, hm.2.1, hm.2.2.1, hm.2.2.2.1, hm.2.2.2.2.1, hm.2.2.2.2.2.1,
      hm.2.2.2.2.2.2⟩

/-- C6: for every queue-type value given to `DeclareAndBind`, every queue
declaration it makes has durable true if and only if the value is
`QueueTypeDurable`, auto-delete true if and only if it is `QueueTypeTransient`,
exclusive true if and only if it is `QueueTypeTransient` (so auto-delete and
exclusive are equal, and for the two policy values durable is the negation of
both), and no-wait false; and when the channel opens, it makes exactly one
queue declaration, on that channel and for the queue name it is given. -/
theorem queue_flags_follow_queue_type (conn : Connection) (exchange queueName key : String)
    (simpleQueueType : Int) :
    (∀ (id : Nat) (name : String) (durable autoDelete exclusive noWait : Bool) (args : Table),
      Call.QueueDeclare id name durable autoDelete exclusive noWait args
          ∈ (DeclareAndBind conn exchange queueName key simpleQueueType).1 →
        (durable = true ↔ simpleQueueType = QueueTypeDurable)
        ∧ (autoDelete = true ↔ simpleQueueType = QueueTypeTransient)
        ∧ (exclusive = true ↔ simpleQueueType = QueueTypeTransient)
        ∧ autoDelete = exclusive
        ∧ (simpleQueueType = QueueTypeDurable ∨ simpleQueueType = QueueTypeTransient →
            durable = !autoDelete ∧ durable = !exclusive)
        ∧ noWait = false)
    ∧ (∀ ch, conn.Channel = .ok ch →
        ∃ (durable autoDelete exclusive : Bool) (args : Table),
          (DeclareAndBind conn exchange queueName key simpleQueueType).1.filter
              Call.isQueueDeclare
            = [Call.QueueDeclare ch.id queueName durable autoDelete exclusive false args]) := by
  constructor
  · intro id name durable autoDelete exclusive noWait args h
    obtain ⟨ch, -, -, -, hd, ha, he, hn, -⟩ :=
      DeclareAndBind_declare_mem conn exchange queueName key simpleQueueType id name
        durable autoDelete exclusive noWait args h
    subst hd ha he hn
    refine ⟨by simp, by simp, by simp, rfl, ?_, rfl⟩
    rintro (h0 | h1)
    · subst h0
      simp [QueueTypeDurable, QueueTypeTransient]
    · subst h1
      simp [QueueTypeDurable, QueueTypeTransient]
  · intro ch hch
    rw [DeclareAndBind_declarations, hch]
    exact ⟨_, _, _, _, rfl⟩

/-- The queue declarations for a durable queue, for a transient queue and for
the queue type 7, which is neither. -/
theorem queue_flags_follow_queue_type_witness :
    (DeclareAndBind (Connection.sound []) "peril_topic" "war" "war_recognitions.*"
        QueueTypeDurable).1.filter Call.isQueueDeclare
      = [Call.QueueDeclare 1 "war" true false false false
          (some [("x-dead-letter-exchange", "peril_dlx")])]
    ∧ (DeclareAndBind (Connection.sound []) "peril_direct" "pause.alice" "pause"
        QueueTypeTransient).1.filter Call.isQueueDeclare
      = [Call.QueueDeclare 1 "pause.alice" false true true false
          (some [("x-dead-letter-exchange", "peril_dlx")])]
    ∧ (DeclareAndBind (Connection.sound []) "peril_direct" "pause.alice" "pause"
        7).1.filter Call.isQueueDeclare
      = [Call.QueueDeclare 1 "pause.alice" false false false false
          (some [("x-dead-letter-exchange", "peril_dlx")])]
    ∧ ((true = true ↔ QueueTypeDurable = QueueTypeDurable)
        ∧ (false = true ↔ QueueTypeDurable = QueueTypeTransient)
        ∧ (false = true ↔ QueueTypeDurable = QueueTypeTransient)
        ∧ false = false
        ∧ (QueueTypeDurable = QueueTypeDurable ∨ QueueTypeDurable = QueueTypeTransient →
            true = !false ∧ true = !false)
        ∧ false = false) :=
  ⟨by decide, by decide, by decide,
    (queue_flags_follow_queue_type (Connection.sound []) "peril_topic" "war"
      "war_recognitions.*" QueueTypeDurable).1 1 "war" true false false false
      (some [("x-dead-letter-exchange", "peril_dlx")]) (by decide)⟩

/-- C7: for every queue name and every policy, the argument table of every
queue declaration `DeclareAndBind` makes has the entry "x-dead-letter-exchange"
= "peril_dlx" if and only if the queue name is not "game_logs"; it is that one
entry for such a name, and the nil table for "game_logs", whatever the policy,
the exchange and the routing key; and when the channel opens, exactly one
queue declaration is made. -/
theorem dead_letter_args_unless_game_logs (conn : Connection)
    (exchange queueName key : String) (simpleQueueType : Int) :
    (∀ (id : Nat) (name : String) (durable autoDelete exclusive noWait : Bool) (args : Table),
      Call.QueueDeclare id name durable autoDelete exclusive noWait args
          ∈ (DeclareAndBind conn exchange queueName key simpleQueueType).1 →
        (args.entry "x-dead-letter-exchange" = some "peril_dlx" ↔ queueName ≠ "game_logs")
        ∧ (queueName ≠ "game_logs" →
            args = some [("x-dead-letter-exchange", "peril_dlx")])
        ∧ (queueName = "game_logs" → args = none))
    ∧ (∀ ch, conn.Channel = .ok ch →
        ∃ (durable autoDelete exclusive : Bool) (args : Table),
          (DeclareAndBind conn exchange queueName key simpleQueueType).1.filter
              Call.isQueueDeclare
            = [Call.QueueDeclare ch.id queueName durable autoDelete exclusive false args]) := by
  constructor
  · intro id name durable autoDelete exclusive noWait args h
    obtain ⟨ch, -, -, -, -, -, -, -, hargs⟩ :=
      DeclareAndBind_declare_mem conn exchange queueName key simpleQueueType id name
        durable autoDelete exclusive noWait args h
    subst hargs
    by_cases hq : queueName = "game_logs"
    · subst hq
      simp [Table.entry]
    · simp [hq, Table.entry, ExchangePerilDead]
  · intro ch hch
    rw [DeclareAndBind_declarations, hch]
    exact ⟨_, _, _, _, rfl⟩

/-- The queue declarations for the queue "game_logs" and for the queue "war". -/
theorem dead_letter_args_unless_game_logs_witness :
    (DeclareAndBind (Connection.sound []) "peril_topic" "game_logs" "game_logs.*"
        QueueTypeDurable).1.filter Call.isQueueDeclare
      = [Call.QueueDeclare 1 "game_logs" true false false false none]
    ∧ (DeclareAndBind (Connection.sound []) "peril_topic" "war" "war_recognitions.*"
        QueueTypeDurable).1.filter Call.isQueueDeclare
      = [Call.QueueDeclare 1 "war" true false false false
          (some [("x-dead-letter-exchange", "peril_dlx")])]
    ∧ ((Table.entry none "x-dead-letter-exchange" = some "peril_dlx"
          ↔ "game_logs" ≠ "game_logs")
        ∧ ("game_logs" ≠ "game_logs" →
            (none : Table) = some [("x-dead-letter-exchange", "peril_dlx")])
        ∧ ("game_logs" = "game_logs" → (none : Table) = none)) :=
  ⟨by decide, by decide,
    (dead_letter_args_unless_game_logs (Connection.sound []) "peril_topic" "game_logs"
      "game_logs.*" QueueTypeDurable).1 1 "game_logs" true false false false none
      (by decide)⟩

/-! ## The publisher -/

/-- C9: `PublishJSON` and `PublishGob` return an error if and only if encoding
the value fails or the publish call fails.  When encoding fails, they return the
encoding error and make no broker call.  When encoding succeeds, they make
exactly one call, `PublishWithContext` on the channel to the given exchange and
routing key with mandatory false, immediate false, the encoded bytes as body
and the content type "application/json" (`PublishJSON`) or "application/gob"
(`PublishGob`), and they return what that call returns. -/
theorem publish_encodes_then_publishes_once {T : Type}
    (Marshal Encode : T → Except GoError Bytes) (ch : Channel) (exchange key : String)
    (val : T) :
    ((∀ err, Marshal val = .error err →
        PublishJSON Marshal ch exchange key val = ([], some err))
      ∧ (∀ body, Marshal val = .ok body →
        PublishJSON Marshal ch exchange key val
          = ([Call.PublishWithContext ch.id exchange key false false
                { ContentType := "application/json", Body := body }],
             ch.PublishWithContext exchange key false false
                { ContentType := "application/json", Body := body }))
      ∧ ((PublishJSON Marshal ch exchange key val).2 ≠ none ↔
          (∃ err, Marshal val = .error err)
          ∨ ∃ body, Marshal val = .ok body
              ∧ ch.PublishWithContext exchange key false false
                  { ContentType := "application/json", Body := body } ≠ none))
    ∧ ((∀ err, Encode val = .error err →
        PublishGob Encode ch exchange key val = ([], some err))
      ∧ (∀ buf, Encode val = .ok buf →
        PublishGob Encode ch exchange key val
          = ([Call.PublishWithContext ch.id exchange key false false
                { ContentType := "application/gob", Body := buf }],
             ch.PublishWithContext exchange key false false
                { ContentType := "application/gob", Body := buf }))
      ∧ ((PublishGob Encode ch exchange key val).2 ≠ none ↔
          (∃ err, Encode val = .error err)
          ∨ ∃ buf, Encode val = .ok buf
              ∧ ch.PublishWithContext exchange key false false
                  { ContentType := "application/gob", Body := buf } ≠ none)) := by
  constructor
  · unfold PublishJSON
    cases h : Marshal val with
    | error err => simp
    | ok body => simp
  · unfold PublishGob
    cases h : Encode val with
    | error err => simp
    | ok buf => simp

/-- A value that does not encode is not published; a value that encodes is
published once. -/
theorem publish_encodes_then_publishes_once_witness :
    PublishJSON byteEncoder (Channel.sound 1 []) "peril_direct" "pause" 300
        = ([], some (GoError.base "unsupported value"))
    ∧ PublishGob byteEncoder (Channel.sound 1 []) "peril_topic" "game_logs.alice" 7
        = ([Call.PublishWithContext 1 "peril_topic" "game_logs.alice" false false
              { ContentType := "application/gob", Body := [7] }], none) :=
  ⟨(publish_encodes_then_publishes_once byteEncoder byteEncoder (Channel.sound 1 [])
      "peril_direct" "pause" 300).1.1 _ rfl,
    (publish_encodes_then_publishes_once byteEncoder byteEncoder (Channel.sound 1 [])
      "peril_topic" "game_logs.alice" 7).2.2.1 _ rfl⟩

/-! ## The set-up of a subscription -/

/-- `DeclareAndBind` sets no prefetch limit and opens no delivery stream. -/
theorem DeclareAndBind_no_qos_no_consume (conn : Connection)
    (exchange queueName key : String) (simpleQueueType : Int) :
    ∀ c ∈ (DeclareAndBind conn exchange queueName key simpleQueueType).1,
      c.isQos = false ∧ c.isConsume = false := by
  unfold DeclareAndBind
  cases hc : conn.Channel with
  | error err => simp [Call.isQos, Call.isConsume]
  | ok ch =>
    dsimp only
    cases hq : ch.QueueDeclare queueName (decide (simpleQueueType = QueueTypeDurable))
        (decide (simpleQueueType = QueueTypeTransient))
        (decide (simpleQueueType = QueueTypeTransient)) false
        (if queueName ≠ "game_logs" then
          some [("x-dead-letter-exchange", ExchangePerilDead)] else none) with
    | error err => simp [Call.isQos, Call.isConsume]
    | ok q =>
      dsimp only
      cases hb : ch.QueueBind q.Name key exchange false none <;>
        simp [Call.isQos, Call.isConsume]

/-- `SubscribeJSON` makes the calls of `DeclareAndBind` and then at most a
`Consume` call: it never sets a prefetch limit. -/
theorem SubscribeJSON_never_sets_prefetch {T A σ : Type} [DecidableEq A] (K : AckConsts A)
    (Unmarshal : Bytes → Except GoError T) (conn : Connection)
    (exchange queueName key : String) (simpleQueueType : Int)
    (handler : σ → T → A × σ) (s : σ) :
    (SubscribeJSON K Unmarshal conn exchange queueName key simpleQueueType handler s).calls.filter
      Call.isQos = [] := by
  have hd := DeclareAndBind_no_qos_no_consume conn exchange queueName key simpleQueueType
  unfold SubscribeJSON
  rcases hdab : DeclareAndBind conn exchange queueName key simpleQueueType with ⟨calls, r⟩
  rw [hdab] at hd
  have hcalls : calls.filter Call.isQos = [] :=
    List.filter_eq_nil_iff.2 fun c hc => by simp [(hd c hc).1]
  cases r with
  | error err => simpa using hcalls
  | ok p =>
    obtain ⟨ch, queue⟩ := p
    dsimp only
    cases hcons : ch.Consume queue.Name "" false false false false none with
    | error err => simp [hcalls, Call.isQos]
    | ok deliveries => simp [hcalls, Call.isQos]

/-- The `subscribe` of `SubscribeGob`, once `DeclareAndBind` has succeeded with
the channel `ch`: it calls `ch.Qos(10, 0, false)` first; when that call fails
it returns an error, makes no `Consume` call and starts no loop; when it
succeeds the next call is `Consume` on the same channel. -/
theorem subscribe_sets_prefetch_before_consume {T A σ : Type} [DecidableEq A]
    (K : AckConsts A) (conn : Connection) (exchange queueName key : String)
    (simpleQueueType : Int) (handler : σ → T → A × σ)
    (unmarshaller : Bytes → Except GoError T) (s : σ)
    (calls : List Call) (ch : Channel) (queue : Queue)
    (hdab : DeclareAndBind conn exchange queueName key simpleQueueType
      = (calls, .ok (ch, queue))) :
    (∀ err, ch.Qos 10 0 false = some err →
      (subscribe K conn exchange queueName key simpleQueueType handler unmarshaller s).calls
          = calls ++ [Call.Qos ch.id 10 0 false]
        ∧ (subscribe K conn exchange queueName key simpleQueueType handler unmarshaller s).err
          = some (GoError.wrapped "failed to set QoS: " err)
        ∧ (subscribe K conn exchange queueName key simpleQueueType handler
            unmarshaller s).goroutine = none)
    ∧ (ch.Qos 10 0 false = none →
      (subscribe K conn exchange queueName key simpleQueueType handler unmarshaller s).calls
          = calls ++ [Call.Qos ch.id 10 0 false,
              Call.Consume ch.id queue.Name "" false false false false none]) := by
  unfold subscribe
  rw [hdab]
  dsimp only
  constructor
  · intro err hq
    rw [hq]
    exact ⟨rfl, rfl, rfl⟩
  · intro hq
    rw [hq]
    dsimp only
    cases hcons : ch.Consume queue.Name "" false false false false none <;> rfl

/-- C5: a successful `SubscribeJSON` call sets no prefetch limit.  On a
connection on which every call succeeds it returns nil and starts its loop
after the calls `Channel`, `QueueDeclare`, `QueueBind` and `Consume`: there is
no `Qos` call.  `SubscribeGob`, on the same input, calls `Qos(10, 0, false)`
before `Consume`. -/
theorem SubscribeJSON_opens_stream_without_prefetch_limit :
    (SubscribeJSON AckTypeInt byteDecoder (Connection.sound [Delivery.sound 1 [0]])
        "peril_direct" "pause.alice" "pause" QueueTypeTransient countingHandler 0).err = none
    ∧ (SubscribeJSON AckTypeInt byteDecoder (Connection.sound [Delivery.sound 1 [0]])
        "peril_direct" "pause.alice" "pause" QueueTypeTransient countingHandler
        0).goroutine.isSome = true
    ∧ (SubscribeJSON AckTypeInt byteDecoder (Connection.sound [Delivery.sound 1 [0]])
        "peril_direct" "pause.alice" "pause" QueueTypeTransient countingHandler 0).calls
      = [Call.Channel,
         Call.QueueDeclare 1 "pause.alice" false true true false
           (some [("x-dead-letter-exchange", "peril_dlx")]),
         Call.QueueBind 1 "pause.alice" "pause" "peril_direct" false none,
         Call.Consume 1 "pause.alice" "" false false false false none]
    ∧ (SubscribeGob AckTypeInt byteDecoder (Connection.sound [Delivery.sound 1 [0]])
        "peril_direct" "pause.alice" "pause" QueueTypeTransient countingHandler 0).calls
      = [Call.Channel,
         Call.QueueDeclare 1 "pause.alice" false true true false
           (some [("x-dead-letter-exchange", "peril_dlx")]),
         Call.QueueBind 1 "pause.alice" "pause" "peril_direct" false none,
         Call.Qos 1 10 0 false,
         Call.Consume 1 "pause.alice" "" false false false false none] := by
  refine ⟨rfl, rfl, ?_, ?_⟩ <;> decide

/-- C8, as stated, fails for `SubscribeGob`: on a closed connection
`DeclareAndBind` returns the error "channel creation error: connection closed",
and `SubscribeGob` returns another error value, that error wrapped under the
text "failed to declare and bind: ". -/
theorem SubscribeGob_wraps_declare_error :
    errorOf (DeclareAndBind Connection.closed "peril_topic" "war" "war_recognitions.*"
        QueueTypeDurable).2
      = some (GoError.wrapped "channel creation error: " (GoError.base "connection closed"))
    ∧ (SubscribeGob AckTypeInt byteDecoder Connection.closed "peril_topic" "war"
        "war_recognitions.*" QueueTypeDurable countingHandler 0).err
      = some (GoError.wrapped "failed to declare and bind: "
          (GoError.wrapped "channel creation error: " (GoError.base "connection closed")))
    ∧ (SubscribeGob AckTypeInt byteDecoder Connection.closed "peril_topic" "war"
        "war_recognitions.*" QueueTypeDurable countingHandler 0).err
      ≠ errorOf (DeclareAndBind Connection.closed "peril_topic" "war" "war_recognitions.*"
          QueueTypeDurable).2 := by
  refine ⟨rfl, rfl, ?_⟩
  decide

/-- C8, amended: when `DeclareAndBind` fails with the error `err` inside a
subscribe call, `SubscribeJSON` returns `err` itself, while `subscribe`, and so
`SubscribeGob`, returns `err` wrapped by
`fmt.Errorf("failed to declare and bind: %w", err)`, whose message is that
text followed by the message of `err` and which unwraps to `err`.  Both make
the broker calls of `DeclareAndBind` and no other, so no `Qos` and no
`Consume` call, and start no consumption loop. -/
theorem declare_failure_ends_subscribe {T A σ : Type} [DecidableEq A] (K : AckConsts A)
    (decoder : Bytes → Except GoError T) (conn : Connection)
    (exchange queueName key : String) (simpleQueueType : Int)
    (handler : σ → T → A × σ) (s : σ) (err : GoError)
    (hfail : (DeclareAndBind conn exchange queueName key simpleQueueType).2 = .error err) :
    ((SubscribeJSON K decoder conn exchange queueName key simpleQueueType handler s).err
        = some err
      ∧ (SubscribeJSON K decoder conn exchange queueName key simpleQueueType handler s).calls
        = (DeclareAndBind conn exchange queueName key simpleQueueType).1
      ∧ (∀ c ∈ (SubscribeJSON K decoder conn exchange queueName key simpleQueueType
            handler s).calls, c.isQos = false ∧ c.isConsume = false)
      ∧ (SubscribeJSON K decoder conn exchange queueName key simpleQueueType
            handler s).goroutine = none)
    ∧ ((SubscribeGob K decoder conn exchange queueName key simpleQueueType handler s).err
        = some (GoError.wrapped "failed to declare and bind: " err)
      ∧ (GoError.wrapped "failed to declare and bind: " err).Error
        = "failed to declare and bind: " ++ err.Error
      ∧ (GoError.wrapped "failed to declare and bind: " err).Unwrap = some err
      ∧ (SubscribeGob K decoder conn exchange queueName key simpleQueueType handler s).calls
        = (DeclareAndBind conn exchange queueName key simpleQueueType).1
      ∧ (∀ c ∈ (SubscribeGob K decoder conn exchange queueName key simpleQueueType
            handler s).calls, c.isQos = false ∧ c.isConsume = false)
      ∧ (SubscribeGob K decoder conn exchange queueName key simpleQueueType
            handler s).goroutine = none) := by
  have hd := DeclareAndBind_no_qos_no_consume conn exchange queueName key simpleQueueType
  unfold SubscribeGob subscribe SubscribeJSON
  rcases hdab : DeclareAndBind conn exchange queueName key simpleQueueType with ⟨calls, r⟩
  rw [hdab] at hd hfail
  dsimp only at hfail
  subst hfail
  exact ⟨⟨rfl, rfl, hd, rfl⟩, ⟨rfl, rfl, rfl, rfl, hd, rfl⟩⟩

/-- On a closed connection `SubscribeJSON` returns the error of
`DeclareAndBind`, and the only broker call of `SubscribeGob` is `Channel`. -/
theorem declare_failure_ends_subscribe_witness :
    (DeclareAndBind Connection.closed "peril_topic" "war" "war_recognitions.*"
        QueueTypeDurable).2
      = .error (GoError.wrapped "channel creation error: " (GoError.base "connection closed"))
    ∧ (SubscribeJSON AckTypeInt byteDecoder Connection.closed "peril_topic" "war"
        "war_recognitions.*" QueueTypeDurable countingHandler 0).err
      = some (GoError.wrapped "channel creation error: " (GoError.base "connection closed"))
    ∧ (SubscribeGob AckTypeInt byteDecoder Connection.closed "peril_topic" "war"
        "war_recognitions.*" QueueTypeDurable countingHandler 0).calls = [Call.Channel] :=
  ⟨rfl,
    (declare_failure_ends_subscribe AckTypeInt byteDecoder Connection.closed "peril_topic"
      "war" "war_recognitions.*" QueueTypeDurable countingHandler 0 _ rfl).1.1,
    (declare_failure_ends_subscribe AckTypeInt byteDecoder Connection.closed "peril_topic"
      "war" "war_recognitions.*" QueueTypeDurable countingHandler 0 _ rfl).2.2.2.2.1⟩

end PubSub
